import Mathlib

/-
Formal model of the experimenttools core: metric value accumulation
(metrics.py), session metric aggregation (sessions.py: Session), and the
throttled session manager (sessions.py: SessionManager).

Conventions of the embedding:
 * Metric values are integers; wall-clock instants are integers passed
   explicitly to every operation that reads the clock (the source calls
   time.time()).
 * Python exceptions become Except/Option results.  An operation that can
   raise after it has already mutated state returns the error together
   with the partially mutated state, mirroring the exact statement order
   of the source.
 * Files are lists of lines; opening in append mode and writing lines is
   list concatenation.
-/

namespace ExperimentTools

/-! ## NumericMetric (metrics.py lines 149-253)

A `NumericMetric` stores `self._values` (append-only) and
`self._serialization_idx` (how many entries were already flushed).  The
callback list of the base `Metric` class is modelled at the system level
(see `Sys` below); a standalone metric with no callbacks runs none. -/

structure NumericMetric where
  name : String
  values : List Int
  serialization_idx : Nat
  deriving DecidableEq

def NumericMetric.init (name : String) : NumericMetric :=
  { name := name, values := [], serialization_idx := 0 }

/-- `NumericMetric.__call__(value)`: `self._values.append(value)` followed by
`super().__call__` which runs the callbacks (none for a standalone metric). -/
def NumericMetric.call (m : NumericMetric) (v : Int) : NumericMetric :=
  { m with values := m.values ++ [v] }

/-- `NumericMetric.value`: `self._values[-1]`, raising
`ValueError("Metric has not been assigned a value yet.")` when the list is
empty (the IndexError is converted to a ValueError). -/
def NumericMetric.value (m : NumericMetric) : Except String Int :=
  match m.values.getLast? with
  | some v => Except.ok v
  | none => Except.error "Metric has not been assigned a value yet."

/-- `NumericMetric.serialize(file)`: opens `file` in append mode, writes the
header line `value` iff `self._serialization_idx == 0`, then one line per
entry of `self._values[self._serialization_idx:]`, incrementing
`self._serialization_idx` once per line written. -/
def NumericMetric.serialize (m : NumericMetric) (file : List String) :
    NumericMetric × List String :=
  let header := if m.serialization_idx = 0 then ["value"] else []
  let rows := (m.values.drop m.serialization_idx).map (fun v => toString v)
  ({ m with serialization_idx := m.serialization_idx + rows.length },
   file ++ header ++ rows)

/-! ## TimedMetric / TimedNumericMetric (metrics.py lines 112-146, 256-273)

`TimedNumericMetric(NumericMetric, TimedMetric)` has method resolution
order `TimedNumericMetric, NumericMetric, SerializableMetric,
PlottableMetric, TimedMetric, Metric`, so an invocation first runs
`NumericMetric.__call__` (append the value), whose `super().__call__`
reaches `TimedMetric.__call__` (append the elapsed time), whose
`super().__call__` reaches `Metric.__call__` (run callbacks). -/

structure TimedNumericMetric where
  name : String
  values : List Int
  times : List Int
  start_time : Option Int
  serialization_idx : Nat
  deriving DecidableEq

def TimedNumericMetric.init (name : String) : TimedNumericMetric :=
  { name := name, values := [], times := [], start_time := none,
    serialization_idx := 0 }

/-- `TimedMetric.start_time` property: `if not self._start_time:
self._start_time = curr_time()` — `None` and `0` both count as unset
(Python falsiness), then the stored value is returned. -/
def TimedMetric.start_time_of (st : Option Int) (now : Int) : Int :=
  match st with
  | none => now
  | some t => if t = 0 then now else t

/-- Observable events of one metric invocation, in execution order. -/
inductive MetricEvent where
  | appendValue (v : Int)
  | appendTime (t : Int)
  deriving DecidableEq

/-- One invocation of a `TimedNumericMetric` with the wall clock at `now`,
together with the ordered trace of append events it performs.  Following
the MRO: `NumericMetric.__call__` appends `v` to `self._values` first;
its `super().__call__` is `TimedMetric.__call__`, which appends
`self.elapsed_time` (`curr_time() - self.start_time`, the start time being
lazily captured here on first use) to `self._times`. -/
def TimedNumericMetric.callTrace (m : TimedNumericMetric) (now v : Int) :
    TimedNumericMetric × List MetricEvent :=
  let m1 := { m with values := m.values ++ [v] }
  let start := TimedMetric.start_time_of m1.start_time now
  let elapsed := now - start
  let m2 := { m1 with times := m1.times ++ [elapsed], start_time := some start }
  (m2, [MetricEvent.appendValue v, MetricEvent.appendTime elapsed])

def TimedNumericMetric.call (m : TimedNumericMetric) (now v : Int) :
    TimedNumericMetric :=
  (TimedNumericMetric.callTrace m now v).1

/-- `TimedNumericMetric.serialize(file)`: header line `time,value` iff the
cursor is zero, then one `time,value` line per pair of
`zip(self._times[idx:], self._values[idx:])`, incrementing the cursor once
per line written. -/
def TimedNumericMetric.serialize (m : TimedNumericMetric) (file : List String) :
    TimedNumericMetric × List String :=
  let header := if m.serialization_idx = 0 then ["time,value"] else []
  let rows :=
    ((m.times.drop m.serialization_idx).zip (m.values.drop m.serialization_idx)).map
      (fun p => toString p.1 ++ "," ++ toString p.2)
  ({ m with serialization_idx := m.serialization_idx + rows.length },
   file ++ header ++ rows)

/-- Predicate of claim C5 on an invocation trace: some elapsed-time append
occurs strictly before the (first) value append. -/
def timeAppendedBeforeValue (tr : List MetricEvent) : Prop :=
  tr.any (fun e => match e with | MetricEvent.appendTime _ => true | _ => false) = true
  ∧ tr.any (fun e => match e with | MetricEvent.appendValue _ => true | _ => false) = true
  ∧ tr.findIdx (fun e => match e with | MetricEvent.appendTime _ => true | _ => false)
      < tr.findIdx (fun e => match e with | MetricEvent.appendValue _ => true | _ => false)

instance (tr : List MetricEvent) : Decidable (timeAppendedBeforeValue tr) := by
  unfold timeAppendedBeforeValue; infer_instance

/-! ## Session.add_metric (sessions.py lines 97-102)

A metric is represented by its name together with an opaque identity
`mid`, a session by its metric list and the ids of its registered
callbacks.  `add_metric` returns the raised error (if any), the session
state after the call, and the list of `on_metric_add` notifications fired
(callback id paired with the metric passed to it). -/

structure MetricObj where
  name : String
  mid : Nat
  deriving DecidableEq

structure SessionAdd where
  metrics : List MetricObj
  callbacks : List Nat
  deriving DecidableEq

/-- `Session.add_metric(metric)`: raise `ValueError` when `metric.name in
[m.name for m in self._metrics]` (before any mutation); otherwise append
the metric and run `h.on_metric_add(metric)` for every callback. -/
def Session.add_metric (s : SessionAdd) (m : MetricObj) :
    Option String × SessionAdd × List (Nat × MetricObj) :=
  if m.name ∈ s.metrics.map MetricObj.name then
    (some ("Session already has metric with name: " ++ m.name), s, [])
  else
    (none, { s with metrics := s.metrics ++ [m] },
     s.callbacks.map (fun c => (c, m)))

/-! ## The managed-session system (sessions.py lines 26-283)

`Sys` is the whole-world state of one `Session` holding serializable
`NumericMetric`s plus one `SessionManager`.  Callbacks are tags:
`MCb.processMetricUpdate` is the manager's bound
`process_metric_update` on a metric's callback list,
`SCb.managerSessionCb` is the manager's `LambdaSessionCallback` on the
session's callback list; `external` tags stand for unrelated callbacks
(no-ops in this model).  `files` maps a metric name to the line contents
of `serialized/<name>.txt`; `plotCount` counts `plot()` runs (the
rendered artifact is outside the model); `updateCount` counts
`Session.update()` calls. -/

inductive MCb where
  | processMetricUpdate
  | externalM (id : Nat)
  deriving DecidableEq

inductive SCb where
  | managerSessionCb
  | externalS (id : Nat)
  deriving DecidableEq

/-- The manager's throttling state: `update_type="seconds"` stores
`self._last_update_seconds`, `update_type="updates"` stores
`self._num_updates` (the source distinguishes them by attribute
presence). -/
inductive Policy where
  | seconds (last_update : Int)
  | updates (num_updates : Nat)
  deriving DecidableEq

structure MetricS where
  nm : NumericMetric
  callbacks : List MCb
  deriving DecidableEq

/-- A session before a manager is constructed over it. -/
structure SessionS where
  metrics : List MetricS
  sessionCallbacks : List SCb
  files : List (String × List String)
  plotCount : Nat
  updateCount : Nat
  deriving DecidableEq

structure Sys where
  metrics : List MetricS
  sessionCallbacks : List SCb
  files : List (String × List String)
  plotCount : Nat
  updateCount : Nat
  managing : Bool
  policy : Policy
  update_freq : Nat
  deriving DecidableEq

def fileFor : List (String × List String) → String → List String
  | [], _ => []
  | p :: ps, name => if p.1 = name then p.2 else fileFor ps name

def setFile : List (String × List String) → String → List String →
    List (String × List String)
  | [], name, content => [(name, content)]
  | p :: ps, name, content =>
      if p.1 = name then (name, content) :: ps else p :: setFile ps name content

/-- Python `list.remove(x)`: drop the first element equal to `x`, `none`
when `x` is absent (a `ValueError` in the source). -/
def removeFirst {α : Type} [DecidableEq α] (a : α) : List α → Option (List α)
  | [] => none
  | b :: bs => if b = a then some bs else (removeFirst a bs).map (fun r => b :: r)

def modifyIdx {α : Type} (f : α → α) : List α → Nat → List α
  | [], _ => []
  | a :: as, 0 => f a :: as
  | a :: as, i + 1 => a :: modifyIdx f as i

/-- `Session.serialize()` body: for each metric in order (all metrics of
this model are serializable), call `metric.serialize(serialize_dir /
metric.name)`, threading the per-name file contents. -/
def Session.serializeAll : List MetricS → List (String × List String) →
    List MetricS × List (String × List String)
  | [], files => ([], files)
  | m :: rest, files =>
      let r := NumericMetric.serialize m.nm (fileFor files m.nm.name)
      let rr := Session.serializeAll rest (setFile files m.nm.name r.2)
      ({ m with nm := r.1 } :: rr.1, rr.2)

/-- `Session.update()`: run the update actions in construction order —
`plot` first, then `serialize` — and fire `on_update` on every session
callback (the manager's `LambdaSessionCallback` defines no `on_update`,
external callbacks are no-ops here); `updateCount` observes the call. -/
def Session.update (sys : Sys) : Sys :=
  let s1 := { sys with plotCount := sys.plotCount + 1 }
  let r := Session.serializeAll s1.metrics s1.files
  { s1 with metrics := r.1, files := r.2, updateCount := s1.updateCount + 1 }

/-- `SessionManager.process_metric_update(_)`: the `try` branch reads
`self._last_update_seconds` (present exactly for the `seconds` policy) and
compares the elapsed wall-clock time with `self._update_freq`; on
`AttributeError` the `except` branch runs the count policy:
`if self._num_updates + 1 >= self._update_freq` then
`self._session.update()` and `self._num_updates = 0`, else
`self._num_updates += 1`. -/
def SessionManager.process (sys : Sys) (now : Int) : Sys :=
  match sys.policy with
  | Policy.seconds last =>
      if now - last ≥ (sys.update_freq : Int) then
        { Session.update sys with policy := Policy.seconds now }
      else sys
  | Policy.updates n =>
      if n + 1 ≥ sys.update_freq then
        { Session.update sys with policy := Policy.updates 0 }
      else { sys with policy := Policy.updates (n + 1) }

def runMetricCb (sys : Sys) (now : Int) : MCb → Sys
  | MCb.processMetricUpdate => SessionManager.process sys now
  | MCb.externalM _ => sys

/-- Invoking metric number `midx` with value `v` at clock `now`:
`NumericMetric.__call__` appends the value, then `Metric.__call__` runs
the metric's callbacks in registration order on the evolving state. -/
def Sys.metricCall (sys : Sys) (now : Int) (midx : Nat) (v : Int) : Sys :=
  let sys1 := { sys with
    metrics := modifyIdx (fun m => { m with nm := NumericMetric.call m.nm v })
      sys.metrics midx }
  let cbs := match sys1.metrics.get? midx with
             | some m => m.callbacks
             | none => []
  cbs.foldl (fun acc cb => runMetricCb acc now cb) sys1

/-- `SessionManager.__init__(session, update_type, update_freq)`: sets
`_managing = False` and creates the session callback, then validates
`update_type` — `"seconds"` stores the current time, `"updates"` stores a
zero counter, anything else raises `ValueError` before the constructor
finishes, so no manager value exists and the session is untouched. -/
def SessionManager.construct (s : SessionS) (update_type : String)
    (update_freq : Nat) (now : Int) : Except String Sys :=
  if update_type = "seconds" then
    Except.ok
      { metrics := s.metrics, sessionCallbacks := s.sessionCallbacks,
        files := s.files, plotCount := s.plotCount, updateCount := s.updateCount,
        managing := false, policy := Policy.seconds now, update_freq := update_freq }
  else if update_type = "updates" then
    Except.ok
      { metrics := s.metrics, sessionCallbacks := s.sessionCallbacks,
        files := s.files, plotCount := s.plotCount, updateCount := s.updateCount,
        managing := false, policy := Policy.updates 0, update_freq := update_freq }
  else
    Except.error ("Uknown value for parameter update_type: " ++ update_type)

/-- `SessionManager.manage()`: raise `RuntimeError` when already managing
(before any mutation); otherwise set `_managing = True`, append the
manager's session callback to the session, and append
`process_metric_update` to every current metric's callback list. -/
def SessionManager.manage (sys : Sys) : Except String Sys :=
  if sys.managing then
    Except.error "RuntimeError: SessionManager is already managing"
  else
    Except.ok { sys with
      managing := true,
      sessionCallbacks := sys.sessionCallbacks ++ [SCb.managerSessionCb],
      metrics := sys.metrics.map
        (fun m => { m with callbacks := m.callbacks ++ [MCb.processMetricUpdate] }) }

/-- The `for m in self._session.metrics: m.remove_callback(...)` loop of
`close`: metrics before a failing removal keep their mutation, the
failing metric and its successors are untouched and the error is
raised. -/
def closeMetricsLoop : List MetricS → Option String × List MetricS
  | [] => (none, [])
  | m :: rest =>
      match removeFirst MCb.processMetricUpdate m.callbacks with
      | none => (some "ValueError: list.remove(x): x not in list", m :: rest)
      | some cbs =>
          let r := closeMetricsLoop rest
          (r.1, { m with callbacks := cbs } :: r.2)

/-- `SessionManager.close()`: raise `RuntimeError` when `not
self._managing`; otherwise remove the manager's session callback from the
session, then remove `process_metric_update` from every metric.  The
source never resets `self._managing`, so the flag stays as it was. -/
def SessionManager.close (sys : Sys) : Option String × Sys :=
  if sys.managing = false then
    (some "RuntimeError: SessionManager is already closed", sys)
  else
    match removeFirst SCb.managerSessionCb sys.sessionCallbacks with
    | none => (some "ValueError: list.remove(x): x not in list", sys)
    | some scbs =>
        let sys1 := { sys with sessionCallbacks := scbs }
        let r := closeMetricsLoop sys1.metrics
        (r.1, { sys1 with metrics := r.2 })

/-- `SessionManager.__enter__()`: raise `RuntimeError` when `not
self._managing`; otherwise do nothing (the guard is obtained from
`manage()`).  The method only reads state. -/
def SessionManager.enterCtx (sys : Sys) : Option String × Sys :=
  if sys.managing = false then
    (some "RuntimeError: Use with manager.manage() for context management", sys)
  else
    (none, sys)

/-! ## Concrete systems used by the end-to-end claims -/

def demoMetric : MetricS := { nm := NumericMetric.init "m0", callbacks := [] }

def demoSession : SessionS :=
  { metrics := [demoMetric], sessionCallbacks := [], files := [],
    plotCount := 0, updateCount := 0 }

/-- `SessionManager(session, update_type="updates", update_freq=2)` over a
session with the single metric `m0`. -/
def demoSys : Sys :=
  { metrics := [demoMetric], sessionCallbacks := [], files := [],
    plotCount := 0, updateCount := 0, managing := false,
    policy := Policy.updates 0, update_freq := 2 }

/-- `demoSys` after `manage()`. -/
def demoManaged : Sys :=
  { metrics := [{ nm := NumericMetric.init "m0",
                  callbacks := [MCb.processMetricUpdate] }],
    sessionCallbacks := [SCb.managerSessionCb], files := [],
    plotCount := 0, updateCount := 0, managing := true,
    policy := Policy.updates 0, update_freq := 2 }

def demoAddSession : SessionAdd :=
  { metrics := [{ name := "m0", mid := 0 }], callbacks := [7] }

end ExperimentTools

namespace ExperimentTools

/-! ## Helper lemmas -/

lemma foldl_call_values (vs : List Int) :
    ∀ m : NumericMetric, (vs.foldl NumericMetric.call m).values = m.values ++ vs := by
  induction vs with
  | nil => intro m; simp
  | cons v vs ih =>
      intro m
      simp only [List.foldl_cons, ih, NumericMetric.call]
      simp

lemma tnm_call_lengths (m : TimedNumericMetric) (now v : Int) :
    (TimedNumericMetric.call m now v).times.length = m.times.length + 1
    ∧ (TimedNumericMetric.call m now v).values.length = m.values.length + 1 := by
  simp [TimedNumericMetric.call, TimedNumericMetric.callTrace]

lemma foldl_tnm_lengths (obs : List (Int × Int)) :
    ∀ m : TimedNumericMetric,
      ((obs.foldl (fun m p => TimedNumericMetric.call m p.1 p.2) m).times.length
          = m.times.length + obs.length)
      ∧ ((obs.foldl (fun m p => TimedNumericMetric.call m p.1 p.2) m).values.length
          = m.values.length + obs.length) := by
  induction obs with
  | nil => intro m; simp
  | cons p obs ih =>
      intro m
      simp only [List.foldl_cons, List.length_cons]
      have hstep := tnm_call_lengths m p.1 p.2
      have h := ih (TimedNumericMetric.call m p.1 p.2)
      omega

/-! ## Claim C3 -/

/-- Claim C3 (confirmed): for every sequence of invocations with values
`vs` on a fresh numeric metric, `values` is exactly `vs` in invocation
order, and `value` is the last element of `vs` — or the
uninitialized-metric error when `vs` is empty. -/
theorem spec_C3_values_in_order (name : String) (vs : List Int) :
    (vs.foldl NumericMetric.call (NumericMetric.init name)).values = vs
    ∧ NumericMetric.value (vs.foldl NumericMetric.call (NumericMetric.init name))
        = (match vs.getLast? with
           | some v => Except.ok v
           | none => Except.error "Metric has not been assigned a value yet.") := by
  have hv : (vs.foldl NumericMetric.call (NumericMetric.init name)).values = vs := by
    rw [foldl_call_values]; rfl
  refine ⟨hv, ?_⟩
  unfold NumericMetric.value
  rw [hv]

/-! ## Claim C6 -/

/-- Claim C6 (confirmed): for a timed numeric metric, after every completed
sequence of invocations (each carrying a clock reading and a value) the
elapsed-time sequence and the value sequence have equal length. -/
theorem spec_C6_times_values_aligned (name : String) (obs : List (Int × Int)) :
    (obs.foldl (fun m p => TimedNumericMetric.call m p.1 p.2)
        (TimedNumericMetric.init name)).times.length
      = (obs.foldl (fun m p => TimedNumericMetric.call m p.1 p.2)
        (TimedNumericMetric.init name)).values.length := by
  have h := foldl_tnm_lengths obs (TimedNumericMetric.init name)
  rw [h.1, h.2]
  simp [TimedNumericMetric.init]

/-! ## Claim C5 -/

/-- Claim C5 is false on the code: invoking a fresh timed numeric metric at
clock 10 with value 5 appends the value first and the elapsed time second,
so no elapsed-time append precedes the value append. -/
theorem spec_C5_counterexample :
    (TimedNumericMetric.callTrace (TimedNumericMetric.init "m") 10 5).2
        = [MetricEvent.appendValue 5, MetricEvent.appendTime 0]
    ∧ ¬ timeAppendedBeforeValue
        (TimedNumericMetric.callTrace (TimedNumericMetric.init "m") 10 5).2 :=
  ⟨rfl, by decide⟩

/-- Claim C5 (amended): on every invocation of a timed numeric metric the
value is appended to the value sequence first and the elapsed-time entry
(now minus the lazily captured start time) is appended to the time
sequence second; both appends complete within the invocation, keeping the
two sequences index-aligned. -/
theorem spec_C5_value_appended_first (m : TimedNumericMetric) (now v : Int) :
    (TimedNumericMetric.callTrace m now v).2
      = [MetricEvent.appendValue v,
         MetricEvent.appendTime (now - TimedMetric.start_time_of m.start_time now)] := rfl

/-! ## Claim C4 -/

/-- Claim C4 is false on the code in the empty-history case, for both
serializable metric kinds: a metric with no observations has cursor 0 on
both flushes, so each flush re-appends the header line — the second flush
appends an additional output row (shown for `NumericMetric.serialize` and
for the zip-based `TimedNumericMetric.serialize`). -/
theorem spec_C4_counterexample :
    (NumericMetric.serialize (NumericMetric.init "m") []).2 = ["value"]
    ∧ (NumericMetric.serialize
          (NumericMetric.serialize (NumericMetric.init "m") []).1
          (NumericMetric.serialize (NumericMetric.init "m") []).2).2
        = ["value", "value"]
    ∧ (NumericMetric.serialize
          (NumericMetric.serialize (NumericMetric.init "m") []).1
          (NumericMetric.serialize (NumericMetric.init "m") []).2).2
        ≠ (NumericMetric.serialize (NumericMetric.init "m") []).2
    ∧ (TimedNumericMetric.serialize (TimedNumericMetric.init "t") []).2
        = ["time,value"]
    ∧ (TimedNumericMetric.serialize
          (TimedNumericMetric.serialize (TimedNumericMetric.init "t") []).1
          (TimedNumericMetric.serialize (TimedNumericMetric.init "t") []).2).2
        = ["time,value", "time,value"]
    ∧ (TimedNumericMetric.serialize
          (TimedNumericMetric.serialize (TimedNumericMetric.init "t") []).1
          (TimedNumericMetric.serialize (TimedNumericMetric.init "t") []).2).2
        ≠ (TimedNumericMetric.serialize (TimedNumericMetric.init "t") []).2 :=
  ⟨rfl, rfl, by decide, rfl, rfl, by decide⟩

/-- Claim C4 (amended), for both serializable metric kinds: flush appends
the header (when the cursor is zero) plus exactly the slice of history
from the cursor to the end — for a timed numeric metric the rows are the
zip of the time slice and the value slice from the cursor — and advances
the cursor by the number of data rows written; provided the cursor is
nonzero after the first flush (i.e. at least one row has ever been
flushed), a second flush with no new observations appends nothing — with a
still-empty history the header line is re-appended on every flush. -/
theorem spec_C4_incremental_flush (m : NumericMetric)
    (tm : TimedNumericMetric) (file tfile : List String) :
    ((NumericMetric.serialize m file).1.values = m.values
      ∧ (NumericMetric.serialize m file).1.serialization_idx
          = m.serialization_idx + (m.values.drop m.serialization_idx).length
      ∧ (NumericMetric.serialize m file).2
          = file ++ (if m.serialization_idx = 0 then ["value"] else [])
              ++ (m.values.drop m.serialization_idx).map (fun v => toString v))
    ∧ (0 < (NumericMetric.serialize m file).1.serialization_idx →
        NumericMetric.serialize (NumericMetric.serialize m file).1
            (NumericMetric.serialize m file).2
          = NumericMetric.serialize m file)
    ∧ ((TimedNumericMetric.serialize tm tfile).1.values = tm.values
      ∧ (TimedNumericMetric.serialize tm tfile).1.times = tm.times
      ∧ (TimedNumericMetric.serialize tm tfile).1.serialization_idx
          = tm.serialization_idx
            + ((tm.times.drop tm.serialization_idx).zip
                (tm.values.drop tm.serialization_idx)).length
      ∧ (TimedNumericMetric.serialize tm tfile).2
          = tfile ++ (if tm.serialization_idx = 0 then ["time,value"] else [])
              ++ ((tm.times.drop tm.serialization_idx).zip
                    (tm.values.drop tm.serialization_idx)).map
                  (fun p => toString p.1 ++ "," ++ toString p.2))
    ∧ (0 < (TimedNumericMetric.serialize tm tfile).1.serialization_idx →
        TimedNumericMetric.serialize (TimedNumericMetric.serialize tm tfile).1
            (TimedNumericMetric.serialize tm tfile).2
          = TimedNumericMetric.serialize tm tfile) := by
  refine ⟨⟨rfl, ?_, rfl⟩, ?_, ⟨rfl, rfl, ?_, rfl⟩, ?_⟩
  · simp [NumericMetric.serialize]
  · intro h
    simp only [NumericMetric.serialize, List.length_map] at h ⊢
    have hlen : m.serialization_idx + (m.values.drop m.serialization_idx).length
        ≥ m.values.length := by
      rw [List.length_drop]; omega
    have hpos : ¬ (m.serialization_idx + (m.values.drop m.serialization_idx).length = 0) := by
      simp only [List.length_drop] at h ⊢
      omega
    have hdrop : m.values.drop
        (m.serialization_idx + (m.values.drop m.serialization_idx).length) = [] := by
      apply List.drop_eq_nil_of_le
      exact hlen
    simp only [List.length_drop] at hpos
    simp [hpos, hdrop, List.length_drop]
    omega
  · simp [TimedNumericMetric.serialize]
  · intro h
    simp only [TimedNumericMetric.serialize, List.length_map, List.length_zip,
      List.length_drop] at h ⊢
    have hpos : ¬ (tm.serialization_idx +
        min (tm.times.length - tm.serialization_idx)
          (tm.values.length - tm.serialization_idx) = 0) := by omega
    have hz : (tm.times.drop (tm.serialization_idx +
          min (tm.times.length - tm.serialization_idx)
            (tm.values.length - tm.serialization_idx))).zip
        (tm.values.drop (tm.serialization_idx +
          min (tm.times.length - tm.serialization_idx)
            (tm.values.length - tm.serialization_idx))) = [] := by
      apply List.length_eq_zero.mp
      simp only [List.length_zip, List.length_drop]
      omega
    simp [hpos, hz, List.length_zip, List.length_drop]
    omega

/-! ## Claim C9 -/

/-- Claim C9 is false on the code: the flush cursor is per-metric, not
per-target.  After flushing a one-value metric to a first target (which
does get the header), a first flush of the same metric to a fresh second
target writes nothing at all — no header row appears in the fresh target. -/
theorem spec_C9_counterexample :
    (NumericMetric.serialize { NumericMetric.init "m" with values := [1] } []).2
        = ["value", "1"]
    ∧ (NumericMetric.serialize
          (NumericMetric.serialize { NumericMetric.init "m" with values := [1] } []).1
          []).2
        = [] :=
  ⟨rfl, rfl⟩

/-- Claim C9 (amended): the header row (`value` for numeric metrics,
`time,value` for timed numeric metrics) is written exactly on the flush
calls where the metric's cursor is zero — i.e. on the metric's first flush
overall, not per target — before any data rows; flushes with a nonzero
cursor append data rows only.  Within a session each metric is always
flushed to the same target, so there the first flush writes the header. -/
theorem spec_C9_header_on_first_flush (m : NumericMetric)
    (tm : TimedNumericMetric) (f g : List String) :
    ((m.serialization_idx = 0 →
        (NumericMetric.serialize m f).2
          = f ++ "value" :: m.values.map (fun v => toString v))
      ∧ (m.serialization_idx ≠ 0 →
        (NumericMetric.serialize m f).2
          = f ++ (m.values.drop m.serialization_idx).map (fun v => toString v)))
    ∧ ((tm.serialization_idx = 0 →
        (TimedNumericMetric.serialize tm g).2
          = g ++ "time,value" :: (tm.times.zip tm.values).map
              (fun p => toString p.1 ++ "," ++ toString p.2))
      ∧ (tm.serialization_idx ≠ 0 →
        (TimedNumericMetric.serialize tm g).2
          = g ++ ((tm.times.drop tm.serialization_idx).zip
                (tm.values.drop tm.serialization_idx)).map
              (fun p => toString p.1 ++ "," ++ toString p.2))) := by
  refine ⟨⟨?_, ?_⟩, ⟨?_, ?_⟩⟩ <;> intro h <;>
    simp [NumericMetric.serialize, TimedNumericMetric.serialize, h]

/-- Witness for the amended claim C9, at a one-value metric flushed with
cursor 0 and a flushed timed metric with cursor 1. -/
theorem spec_C9_header_on_first_flush_witness :
    (NumericMetric.serialize { NumericMetric.init "m" with values := [1] } []).2
        = [] ++ "value" :: ([(1 : Int)].map (fun v => toString v))
    ∧ (TimedNumericMetric.serialize
          { TimedNumericMetric.init "t" with
              values := [4], times := [2], serialization_idx := 1 } []).2
        = [] ++ (([(2 : Int)].drop 1).zip ([(4 : Int)].drop 1)).map
            (fun p => toString p.1 ++ "," ++ toString p.2) :=
  ⟨(spec_C9_header_on_first_flush
      { NumericMetric.init "m" with values := [1] }
      (TimedNumericMetric.init "t") [] []).1.1 rfl,
   (spec_C9_header_on_first_flush (NumericMetric.init "m")
      { TimedNumericMetric.init "t" with
          values := [4], times := [2], serialization_idx := 1 } [] []).2.2
      (by decide)⟩

/-- Witness for the amended claim C4, at a numeric metric holding one
unflushed value and a timed numeric metric holding one unflushed
time/value pair: each first flush leaves the cursor at 1 and each second
flush is the identity. -/
theorem spec_C4_incremental_flush_witness :
    (0 < (NumericMetric.serialize { NumericMetric.init "m" with values := [7] } []).1.serialization_idx)
    ∧ NumericMetric.serialize
        (NumericMetric.serialize { NumericMetric.init "m" with values := [7] } []).1
        (NumericMetric.serialize { NumericMetric.init "m" with values := [7] } []).2
      = NumericMetric.serialize { NumericMetric.init "m" with values := [7] } []
    ∧ (0 < (TimedNumericMetric.serialize
          { TimedNumericMetric.init "t" with values := [4], times := [2] } []).1.serialization_idx)
    ∧ TimedNumericMetric.serialize
        (TimedNumericMetric.serialize
          { TimedNumericMetric.init "t" with values := [4], times := [2] } []).1
        (TimedNumericMetric.serialize
          { TimedNumericMetric.init "t" with values := [4], times := [2] } []).2
      = TimedNumericMetric.serialize
          { TimedNumericMetric.init "t" with values := [4], times := [2] } [] :=
  ⟨by decide,
   (spec_C4_incremental_flush { NumericMetric.init "m" with values := [7] }
      (TimedNumericMetric.init "t") [] []).2.1 (by decide),
   by decide,
   (spec_C4_incremental_flush (NumericMetric.init "m")
      { TimedNumericMetric.init "t" with values := [4], times := [2] } [] []).2.2.2
     (by decide)⟩

/-! ## Claim C1 -/

/-- Claim C1 (confirmed): the count policy increments a running counter
per observed metric update and calls `session.update()` (resetting the
counter to zero) exactly when the increment would reach or exceed the
threshold; concretely, with `update_type="updates"` and `update_freq=2`
over a session with the single metric `m0`, invoking `m0` five times with
values 0..4 triggers `Session.update()` exactly twice — after the 2nd and
the 4th invocation — so the serialized file holds exactly the header and
the values 0,1,2,3 and not the 5th value. -/
theorem spec_C1_count_policy_updates :
    (∀ (sys : Sys) (n : Nat) (now : Int),
        SessionManager.process { sys with policy := Policy.updates n } now
          = if n + 1 ≥ sys.update_freq
            then { Session.update { sys with policy := Policy.updates n } with
                     policy := Policy.updates 0 }
            else { sys with policy := Policy.updates (n + 1) })
    ∧ SessionManager.construct demoSession "updates" 2 0 = Except.ok demoSys
    ∧ SessionManager.manage demoSys = Except.ok demoManaged
    ∧ ([0, 1].foldl (fun s v => Sys.metricCall s 0 0 v) demoManaged).updateCount = 1
    ∧ ([0, 1, 2].foldl (fun s v => Sys.metricCall s 0 0 v) demoManaged).updateCount = 1
    ∧ ([0, 1, 2, 3].foldl (fun s v => Sys.metricCall s 0 0 v) demoManaged).updateCount = 2
    ∧ ([0, 1, 2, 3, 4].foldl (fun s v => Sys.metricCall s 0 0 v) demoManaged).updateCount = 2
    ∧ fileFor
        ([0, 1, 2, 3, 4].foldl (fun s v => Sys.metricCall s 0 0 v) demoManaged).files
        "m0"
      = ["value", "0", "1", "2", "3"] := by
  refine ⟨fun _ _ _ => rfl, ?_, rfl, rfl, rfl, rfl, rfl, rfl⟩
  unfold SessionManager.construct
  rw [if_neg (by decide), if_pos rfl]
  rfl

/-! ## Claim C2 -/

/-- Claim C2 is a bug in the code: `manage()` and the guards behave as
claimed, but `close()` never resets `self._managing`, so after a
successful `close()` the manager still reports managing and a second
`close()` passes the invalid-state guard and instead fails inside
`remove_callback` with the missing-callback `ValueError` — not the
invalid-state `RuntimeError` the claim (and the method's own error
message) require.  The theorem evaluates the code on that failing input. -/
theorem spec_C2_close_keeps_managing_flag :
    (SessionManager.close demoSys).1
        = some "RuntimeError: SessionManager is already closed"
    ∧ SessionManager.manage demoSys = Except.ok demoManaged
    ∧ SessionManager.manage demoManaged
        = Except.error "RuntimeError: SessionManager is already managing"
    ∧ (SessionManager.close demoManaged).1 = none
    ∧ (SessionManager.close demoManaged).2.managing = true
    ∧ (SessionManager.close (SessionManager.close demoManaged).2).1
        = some "ValueError: list.remove(x): x not in list" :=
  ⟨rfl, rfl, rfl, rfl, rfl, rfl⟩

/-! ## Claim C7 -/

/-- Claim C7 (confirmed): `Session.add_metric` with a duplicate name fails
with the duplicate-name error, leaves the metric list unchanged and fires
no `on_metric_add` event; with a fresh name it appends the metric and
fires `on_metric_add` for every registered observer, passing the new
metric. -/
theorem spec_C7_add_metric (s : SessionAdd) (m : MetricObj) :
    (m.name ∈ s.metrics.map MetricObj.name →
        Session.add_metric s m
          = (some ("Session already has metric with name: " ++ m.name), s, []))
    ∧ (m.name ∉ s.metrics.map MetricObj.name →
        Session.add_metric s m
          = (none, { s with metrics := s.metrics ++ [m] },
             s.callbacks.map (fun c => (c, m)))) := by
  constructor <;> intro h <;> simp [Session.add_metric, h]

/-- Witness for claim C7: a duplicate `m0` is rejected with the session
unchanged and no event, a fresh `m1` is appended with one event. -/
theorem spec_C7_add_metric_witness :
    Session.add_metric demoAddSession { name := "m0", mid := 1 }
        = (some ("Session already has metric with name: " ++ "m0"),
           demoAddSession, [])
    ∧ Session.add_metric demoAddSession { name := "m1", mid := 1 }
        = (none,
           { demoAddSession with
               metrics := demoAddSession.metrics ++ [{ name := "m1", mid := 1 }] },
           demoAddSession.callbacks.map
             (fun c => (c, ({ name := "m1", mid := 1 } : MetricObj)))) :=
  ⟨(spec_C7_add_metric demoAddSession { name := "m0", mid := 1 }).1 (by decide),
   (spec_C7_add_metric demoAddSession { name := "m1", mid := 1 }).2 (by decide)⟩

/-! ## Claim C8 -/

/-- Claim C8 (confirmed): constructing a `SessionManager` with an
`update_type` that is neither `seconds` nor `updates` fails at
construction with the configuration error, producing no manager value —
and even a successful construction leaves the session's and metrics'
callback lists untouched with `managing = false` (observers are only
attached later, by `manage()`). -/
theorem spec_C8_invalid_update_type (s : SessionS) (t : String)
    (freq : Nat) (now : Int) :
    (t ≠ "seconds" → t ≠ "updates" →
        SessionManager.construct s t freq now
          = Except.error ("Uknown value for parameter update_type: " ++ t))
    ∧ SessionManager.construct s "updates" freq now
        = Except.ok
            { metrics := s.metrics, sessionCallbacks := s.sessionCallbacks,
              files := s.files, plotCount := s.plotCount,
              updateCount := s.updateCount, managing := false,
              policy := Policy.updates 0, update_freq := freq }
    ∧ SessionManager.construct s "seconds" freq now
        = Except.ok
            { metrics := s.metrics, sessionCallbacks := s.sessionCallbacks,
              files := s.files, plotCount := s.plotCount,
              updateCount := s.updateCount, managing := false,
              policy := Policy.seconds now, update_freq := freq } := by
  refine ⟨fun h1 h2 => ?_, ?_, ?_⟩
  · simp [SessionManager.construct, h1, h2]
  · unfold SessionManager.construct
    rw [if_neg (by decide), if_pos rfl]
  · unfold SessionManager.construct
    rw [if_pos rfl]

/-- Witness for claim C8 at `update_type="bogus"`. -/
theorem spec_C8_invalid_update_type_witness :
    SessionManager.construct demoSession "bogus" 2 0
      = Except.error ("Uknown value for parameter update_type: " ++ "bogus") :=
  (spec_C8_invalid_update_type demoSession "bogus" 2 0).1 (by decide) (by decide)

/-! ## Claim C10 -/

/-- Claim C10 (confirmed): entering the context on a manager that is not
managing (`manage()` was never called) fails with the runtime error
directing the caller to `manage()`, and the system state is returned
unchanged. -/
theorem spec_C10_enter_requires_manage (sys : Sys) (h : sys.managing = false) :
    SessionManager.enterCtx sys
      = (some "RuntimeError: Use with manager.manage() for context management",
         sys) := by
  simp [SessionManager.enterCtx, h]

/-- Witness for claim C10 at the freshly constructed manager. -/
theorem spec_C10_enter_requires_manage_witness :
    SessionManager.enterCtx demoSys
      = (some "RuntimeError: Use with manager.manage() for context management",
         demoSys) :=
  spec_C10_enter_requires_manage demoSys rfl

end ExperimentTools
